import Mathlib

/-!
Shallow embedding of `src/OOP_pump.py`: a `Pump` class driven by an external
thermodynamic property backend (`CoolProp.PropsSI`).  The backend is modelled
as an arbitrary function returning `Option ℚ` (`none` models a raised backend
error).  Python attributes that may be unset before a method runs are modelled
as `Option ℚ` fields; each mutating method returns the state reached at its
end (or at the failing step) together with an optional error, so that partial
updates made before a failure stay visible, as they do on a Python object.
Division mirrors Python float division: dividing by zero raises, which we
model with `qdiv` returning `none`.
-/

namespace OOPPump

/-- Errors a `Pump` method can surface: a property-backend failure
(`CoolProp` raising), a `ZeroDivisionError`, or an `AttributeError` from
reading a not-yet-assigned attribute. -/
inductive PErr | backend | zeroDiv | attrError
deriving DecidableEq, Repr

/-- Python float division: raises `ZeroDivisionError` on zero denominator. -/
def qdiv (a b : ℚ) : Option ℚ := if b = 0 then none else some (a / b)

/-- The property backend `CoolProp.PropsSI(out, n1, v1, n2, v2, fluid)`,
returning `none` when the state point cannot be resolved. -/
abbrev Backend := String → String → ℚ → String → ℚ → String → Option ℚ

/-- The `Pump` object's attribute set.  Constructor-populated fields are
plain `ℚ`; fields first assigned by `power` or `off_design` are `Option ℚ`
(`none` = attribute not yet set on the Python object). -/
structure Pump where
  T_in : ℚ
  p_in : ℚ
  p_out : ℚ
  mf : ℚ
  medium : String
  h_in : ℚ
  s_in : ℚ
  s_out_s : ℚ
  h_out_s : ℚ
  T_out_s : ℚ
  rho_in : ℚ
  V_in : ℚ
  eta_iP : Option ℚ
  h_out : Option ℚ
  T_out : Option ℚ
  s_out : Option ℚ
  N_iP : Option ℚ
  T_in_off : Option ℚ
  p_in_off : Option ℚ
  p_out_off : Option ℚ
  mf_off : Option ℚ
  h_in_off : Option ℚ
  s_in_off : Option ℚ
  s_out_s_off : Option ℚ
  h_out_s_off : Option ℚ
  T_out_s_off : Option ℚ
  rho_in_off : Option ℚ
  V_in_off : Option ℚ
  eta_iP_off : Option ℚ
  h_out_off : Option ℚ
  T_out_off : Option ℚ
  s_out_off : Option ℚ
  N_iP_off : Option ℚ
deriving DecidableEq, Repr

/-- Model of `Pump.__init__` (lines 18-50): stores the inputs, then eagerly computes
inlet enthalpy/entropy, the isentropic outlet state, inlet density and
volumetric flow.  A backend failure during `__init__` means no usable object
exists, hence `Option Pump`. -/
def Pump.init (B : Backend) (T_in p_in p_out mf : ℚ) (medium : String) :
    Option Pump := do
  let hq ← B "Hmass" "T" (T_in + 273.15) "P" (p_in * 1000) medium
  let h_in := hq / 1000
  let sq ← B "Smass" "T" (T_in + 273.15) "P" (p_in * 1000) medium
  let s_in := sq / 1000
  let s_out_s := s_in
  let hsq ← B "Hmass" "Smass" (s_out_s * 1000) "P" (p_out * 1000) medium
  let h_out_s := hsq / 1000
  let tsq ← B "T" "Smass" (s_out_s * 1000) "P" (p_out * 1000) medium
  let T_out_s := tsq - 273.15
  let rho_in ← B "Dmass" "Hmass" (h_in * 1000) "P" (p_in * 1000) medium
  let V_in ← qdiv mf rho_in
  some
    { T_in := T_in, p_in := p_in, p_out := p_out, mf := mf, medium := medium,
      h_in := h_in, s_in := s_in, s_out_s := s_out_s, h_out_s := h_out_s,
      T_out_s := T_out_s, rho_in := rho_in, V_in := V_in,
      eta_iP := none, h_out := none, T_out := none, s_out := none, N_iP := none,
      T_in_off := none, p_in_off := none, p_out_off := none, mf_off := none,
      h_in_off := none, s_in_off := none, s_out_s_off := none,
      h_out_s_off := none, T_out_s_off := none, rho_in_off := none,
      V_in_off := none, eta_iP_off := none, h_out_off := none,
      T_out_off := none, s_out_off := none, N_iP_off := none }

/-- Model of `Pump.power` (lines 52-82): records `eta_iP`, computes the real outlet
enthalpy `h_out = h_in + (h_out_s - h_in)/eta_iP`, looks up `T_out` and
`s_out`, then sets `N_iP = mf*(h_out - h_in)`.  Assignments happen in source
order, so a failing step returns the state reached so far. -/
def Pump.power (B : Backend) (p : Pump) (eta_iP : ℚ) : Pump × Option PErr :=
  let p := { p with eta_iP := some eta_iP }
  match qdiv (p.h_out_s - p.h_in) eta_iP with
  | none => (p, some PErr.zeroDiv)
  | some d =>
    let h_out := p.h_in + d
    let p := { p with h_out := some h_out }
    match B "T" "Hmass" (h_out * 1000) "P" (p.p_out * 1000) p.medium with
    | none => (p, some PErr.backend)
    | some tq =>
      let T_out := tq - 273.15
      let p := { p with T_out := some T_out }
      match B "Smass" "T" (T_out + 273.15) "P" (p.p_out * 1000) p.medium with
      | none => (p, some PErr.backend)
      | some sq =>
        let p := { p with s_out := some (sq / 1000) }
        ({ p with N_iP := some (p.mf * (h_out - p.h_in)) }, none)

/-- The cubic part-load correction curve on line 106
(`-0.168*r**3 - 0.0336*r**2 + 0.6317*r + 0.5699`). -/
def pumpCorrection (r : ℚ) : ℚ :=
  -0.168 * r ^ (3 : ℕ) - 0.0336 * r ^ (2 : ℕ) + 0.6317 * r + 0.5699

/-- Model of `Pump.off_design` (lines 84-111): recomputes the inlet / isentropic
outlet state for the off-design boundary conditions into the `_off` fields,
forms the flow ratio `V_in / V_in_off`, rescales the stored design
efficiency `eta_iP` by the cubic correction, and evaluates the off-design
outlet state and power.  Reading `eta_iP` before `power` has run raises
(`AttributeError`); Python evaluates the parenthesised ratio polynomial —
hence the `V_in/V_in_off` division — before accessing `self.eta_iP`. -/
def Pump.off_design (B : Backend) (p : Pump)
    (T_in_off p_in_off p_out_off mf_off : ℚ) : Pump × Option PErr :=
  let p := { p with T_in_off := some T_in_off, p_in_off := some p_in_off,
                    p_out_off := some p_out_off, mf_off := some mf_off }
  match B "Hmass" "T" (T_in_off + 273.15) "P" (p_in_off * 1000) p.medium with
  | none => (p, some PErr.backend)
  | some hq =>
    let h_in_off := hq / 1000
    let p := { p with h_in_off := some h_in_off }
    match B "Smass" "T" (T_in_off + 273.15) "P" (p_in_off * 1000) p.medium with
    | none => (p, some PErr.backend)
    | some sq =>
      let s_in_off := sq / 1000
      let s_out_s_off := s_in_off
      let p := { p with s_in_off := some s_in_off,
                        s_out_s_off := some s_out_s_off }
      match B "Hmass" "Smass" (s_out_s_off * 1000) "P" (p_out_off * 1000)
          p.medium with
      | none => (p, some PErr.backend)
      | some hsq =>
        let h_out_s_off := hsq / 1000
        let p := { p with h_out_s_off := some h_out_s_off }
        match B "T" "Smass" (s_out_s_off * 1000) "P" (p_out_off * 1000)
            p.medium with
        | none => (p, some PErr.backend)
        | some tsq =>
          let p := { p with T_out_s_off := some (tsq - 273.15) }
          match B "Dmass" "Hmass" (h_in_off * 1000) "P" (p_in_off * 1000)
              p.medium with
          | none => (p, some PErr.backend)
          | some rho =>
            let p := { p with rho_in_off := some rho }
            match qdiv mf_off rho with
            | none => (p, some PErr.zeroDiv)
            | some V_in_off =>
              let p := { p with V_in_off := some V_in_off }
              match qdiv p.V_in V_in_off with
              | none => (p, some PErr.zeroDiv)
              | some r =>
                match p.eta_iP with
                | none => (p, some PErr.attrError)
                | some eta =>
                  let eta_iP_off := pumpCorrection r * eta
                  let p := { p with eta_iP_off := some eta_iP_off }
                  match qdiv (h_out_s_off - h_in_off) eta_iP_off with
                  | none => (p, some PErr.zeroDiv)
                  | some d =>
                    let h_out_off := h_in_off + d
                    let p := { p with h_out_off := some h_out_off }
                    match B "T" "Hmass" (h_out_off * 1000) "P"
                        (p_out_off * 1000) p.medium with
                    | none => (p, some PErr.backend)
                    | some toq =>
                      let p := { p with T_out_off := some (toq - 273.15) }
                      match B "Smass" "T" ((toq - 273.15) + 273.15) "P"
                          (p_out_off * 1000) p.medium with
                      | none => (p, some PErr.backend)
                      | some soq =>
                        let p := { p with s_out_off := some (soq / 1000) }
                        ({ p with
                            N_iP_off := some (mf_off * (h_out_off - h_in_off)) },
                          none)

/-- A deterministic stub backend returning 1 for every lookup, used to build
concrete witness runs. -/
def Bunit : Backend := fun _ _ _ _ _ _ => some 1

/-- A backend whose temperature lookups fail, used to exhibit a mid-method
backend failure. -/
def BfailT : Backend := fun out _ _ _ _ _ => if out = "T" then none else some 1

/-- The pump obtained from `Pump.init Bunit 25 100 500 1 "Water"`, written
out field by field. -/
def pBase : Pump :=
  { T_in := 25, p_in := 100, p_out := 500, mf := 1, medium := "Water",
    h_in := 1 / 1000, s_in := 1 / 1000, s_out_s := 1 / 1000,
    h_out_s := 1 / 1000, T_out_s := 1 - 273.15, rho_in := 1, V_in := 1,
    eta_iP := none, h_out := none, T_out := none, s_out := none, N_iP := none,
    T_in_off := none, p_in_off := none, p_out_off := none, mf_off := none,
    h_in_off := none, s_in_off := none, s_out_s_off := none,
    h_out_s_off := none, T_out_s_off := none, rho_in_off := none,
    V_in_off := none, eta_iP_off := none, h_out_off := none,
    T_out_off := none, s_out_off := none, N_iP_off := none }

/-- The pump `pBase` after a successful `power` call with `eta_iP = 1/2`. -/
def pDemo : Pump := (pBase.power Bunit (1 / 2)).1

end OOPPump

namespace OOPPump

/-- A successful `qdiv a b = some c` forces a nonzero denominator and `c = a / b`. -/
theorem qdiv_eq_some {a b c : ℚ} (h : qdiv a b = some c) :
    b ≠ 0 ∧ c = a / b := by
  unfold qdiv at h
  split at h <;> simp_all

/-- C3: every successful construction stores `s_out_s := s_in`, so the two
entropies coincide exactly on the resulting pump. -/
theorem init_s_out_s_eq_s_in (B : Backend) (T_in p_in p_out mf : ℚ)
    (medium : String) (p : Pump)
    (h : Pump.init B T_in p_in p_out mf medium = some p) :
    p.s_out_s = p.s_in := by
  simp only [Pump.init, bind, Option.bind_eq_some] at h
  obtain ⟨hq, -, sq, -, hsq, -, tsq, -, rho, -, v, -, h⟩ := h
  obtain ⟨rfl⟩ := h
  rfl

/-- C3 witness: the concrete construction with the stub backend satisfies
the isentropic identity. -/
theorem init_s_out_s_eq_s_in_witness :
    Pump.init Bunit 25 100 500 1 "Water" = some pBase ∧
    pBase.s_out_s = pBase.s_in :=
  ⟨by norm_num [Pump.init, Bunit, qdiv, pBase, Option.bind],
    init_s_out_s_eq_s_in Bunit 25 100 500 1 "Water" pBase
      (by norm_num [Pump.init, Bunit, qdiv, pBase, Option.bind])⟩

end OOPPump

namespace OOPPump

/-- C4: when the internal efficiency is 1, the real outlet enthalpy computed
by a successful `power` call coincides with the isentropic one:
`h_out = h_in + (h_out_s - h_in)/1 = h_out_s`. -/
theorem power_eta_one (B : Backend) (p p' : Pump)
    (h : p.power B 1 = (p', none)) : p'.h_out = some p.h_out_s := by
  simp only [Pump.power] at h
  split at h
  · simp at h
  · rename_i d hd
    split at h
    · simp at h
    · split at h
      · simp at h
      · rw [Prod.mk.injEq] at h
        obtain ⟨rfl, -⟩ := h
        obtain ⟨-, rfl⟩ := qdiv_eq_some hd
        simp

/-- C4 witness: a concrete successful `power` call at efficiency 1. -/
theorem power_eta_one_witness :
    pBase.power Bunit 1 = ((pBase.power Bunit 1).1, none) ∧
    (pBase.power Bunit 1).1.h_out = some pBase.h_out_s :=
  ⟨by norm_num [Pump.power, Bunit, qdiv, pBase],
    power_eta_one Bunit pBase (pBase.power Bunit 1).1
      (by norm_num [Pump.power, Bunit, qdiv, pBase])⟩

/-- C5: after every successful `power` call the internal power satisfies
`N_iP = mf * (h_out - h_in)` exactly, for any efficiency. -/
theorem power_energy_balance (B : Backend) (p p' : Pump) (eta ho : ℚ)
    (h : p.power B eta = (p', none)) (hho : p'.h_out = some ho) :
    p'.N_iP = some (p.mf * (ho - p.h_in)) := by
  simp only [Pump.power] at h
  split at h
  · simp at h
  · rename_i d hd
    split at h
    · simp at h
    · split at h
      · simp at h
      · rw [Prod.mk.injEq] at h
        obtain ⟨rfl, -⟩ := h
        simp only [Option.some.injEq] at hho
        simp [← hho]

/-- C5 witness: the concrete run at efficiency 1/2 satisfies the energy
balance. -/
theorem power_energy_balance_witness :
    pBase.power Bunit (1 / 2) = ((pBase.power Bunit (1 / 2)).1, none) ∧
    (pBase.power Bunit (1 / 2)).1.h_out = some (1 / 1000) ∧
    (pBase.power Bunit (1 / 2)).1.N_iP =
      some (pBase.mf * (1 / 1000 - pBase.h_in)) :=
  ⟨by norm_num [Pump.power, Bunit, qdiv, pBase],
    by norm_num [Pump.power, Bunit, qdiv, pBase],
    power_energy_balance Bunit pBase (pBase.power Bunit (1 / 2)).1 (1 / 2)
      (1 / 1000) (by norm_num [Pump.power, Bunit, qdiv, pBase])
      (by norm_num [Pump.power, Bunit, qdiv, pBase])⟩

/-- C6: for `h_out_s ≥ h_in`, positive mass flow and efficiency in `(0, 1]`,
the internal power of a successful `power` call is nonnegative. -/
theorem power_N_iP_nonneg (B : Backend) (p p' : Pump) (eta N : ℚ)
    (h1 : p.h_in ≤ p.h_out_s) (h2 : 0 < p.mf) (h3 : 0 < eta) (h4 : eta ≤ 1)
    (h : p.power B eta = (p', none)) (hN : p'.N_iP = some N) : 0 ≤ N := by
  simp only [Pump.power] at h
  split at h
  · simp at h
  · rename_i d hd
    split at h
    · simp at h
    · split at h
      · simp at h
      · rw [Prod.mk.injEq] at h
        obtain ⟨rfl, -⟩ := h
        obtain ⟨-, rfl⟩ := qdiv_eq_some hd
        simp only [Option.some.injEq] at hN
        subst hN
        have hd0 : 0 ≤ (p.h_out_s - p.h_in) / eta :=
          div_nonneg (by linarith) h3.le
        have : p.h_in + (p.h_out_s - p.h_in) / eta - p.h_in
            = (p.h_out_s - p.h_in) / eta := by ring
        simp only [this]
        exact mul_nonneg h2.le hd0

/-- C6 witness: the concrete run at efficiency 1/2 yields `N_iP = 0 ≥ 0`. -/
theorem power_N_iP_nonneg_witness :
    pBase.h_in ≤ pBase.h_out_s ∧ 0 < pBase.mf ∧ (0 : ℚ) < 1 / 2 ∧
    (1 : ℚ) / 2 ≤ 1 ∧
    (pBase.power Bunit (1 / 2)).1.N_iP = some 0 ∧ (0 : ℚ) ≤ 0 :=
  ⟨by norm_num [pBase], by norm_num [pBase], by norm_num, by norm_num,
    by norm_num [Pump.power, Bunit, qdiv, pBase],
    power_N_iP_nonneg Bunit pBase (pBase.power Bunit (1 / 2)).1 (1 / 2) 0
      (by norm_num [pBase]) (by norm_num [pBase]) (by norm_num) (by norm_num)
      (by norm_num [Pump.power, Bunit, qdiv, pBase])
      (by norm_num [Pump.power, Bunit, qdiv, pBase])⟩

/-- C8 (counterexample): with a backend whose temperature lookup fails,
`power` fails after having already assigned `eta_iP` and `h_out`, so a
partial-success state is visible on the object. -/
theorem power_failed_lookup_state_cex :
    (pBase.power BfailT (1 / 2)).2 = some PErr.backend ∧
    pBase.eta_iP = none ∧ pBase.h_out = none ∧
    (pBase.power BfailT (1 / 2)).1.eta_iP = some (1 / 2) ∧
    (pBase.power BfailT (1 / 2)).1.h_out = some (1 / 1000) := by
  refine ⟨?_, rfl, rfl, ?_, ?_⟩ <;>
    norm_num [Pump.power, BfailT, qdiv, pBase]

/-- C8 (amended): methods assign attributes sequentially, so assignments made
before a failing step stay visible; in particular `power` records its
efficiency argument in the returned state even when a later step fails. -/
theorem power_assigns_eta_iP (B : Backend) (p : Pump) (eta : ℚ) :
    ((p.power B eta).1).eta_iP = some eta := by
  simp only [Pump.power]
  split
  · simp
  · split
    · simp
    · split <;> simp

/-- C9: `power` is idempotent — running it a second time with the same
efficiency and backend reproduces exactly the state and error of the first
run, because it only reads fields it never writes. -/
theorem power_idempotent (B : Backend) (p : Pump) (eta : ℚ) :
    ((p.power B eta).1).power B eta = p.power B eta := by
  unfold Pump.power
  rcases hq : qdiv (p.h_out_s - p.h_in) eta with _ | d
  · simp [hq]
  · rcases hT : B "T" "Hmass" ((p.h_in + d) * 1000) "P" (p.p_out * 1000)
        p.medium with _ | tq
    · simp [hq, hT]
    · rcases hS : B "Smass" "T" tq "P" (p.p_out * 1000) p.medium with _ | sq
      · simp [hq, hT, hS, sub_add_cancel]
      · simp [hq, hT, hS, sub_add_cancel]

end OOPPump

namespace OOPPump

/-- A failed division `qdiv a b = none` means the denominator was zero. -/
theorem qdiv_eq_none {a b : ℚ} (h : qdiv a b = none) : b = 0 := by
  unfold qdiv at h
  split at h <;> simp_all

/-- Concrete value of the correction curve at flow ratio 1/2. -/
theorem pumpCorrection_half : pumpCorrection (1 / 2) = 17127 / 20000 := by
  norm_num [pumpCorrection]

/-- Concrete value of the correction curve at flow ratio 1. -/
theorem pumpCorrection_one : pumpCorrection 1 = 1 := by
  norm_num [pumpCorrection]

/-- C1: a fully successful `off_design` call on a pump whose `power` stored
efficiency `eta` sets `eta_iP_off` to the cubic correction of the flow ratio
`r = V_in / V_in_off` times `eta`, with exactly the source coefficients. -/
theorem off_design_eta_iP_off_formula (B : Backend) (p p' : Pump)
    (Ti pi po mo eta v : ℚ)
    (hp : p.eta_iP = some eta)
    (h : p.off_design B Ti pi po mo = (p', none))
    (hv : p'.V_in_off = some v) :
    v ≠ 0 ∧
    p'.eta_iP_off = some ((-0.168 * (p.V_in / v) ^ (3 : ℕ)
      - 0.0336 * (p.V_in / v) ^ (2 : ℕ)
      + 0.6317 * (p.V_in / v) + 0.5699) * eta) := by
  simp only [Pump.off_design] at h
  split at h
  · simp at h
  split at h
  · simp at h
  split at h
  · simp at h
  split at h
  · simp at h
  split at h
  · simp at h
  split at h
  · simp at h
  rename_i V hV
  split at h
  · simp at h
  rename_i r hr
  split at h
  · simp at h
  rename_i eta' heta
  split at h
  · simp at h
  split at h
  · simp at h
  split at h
  · simp at h
  rw [Prod.mk.injEq] at h
  obtain ⟨rfl, -⟩ := h
  rw [hp] at heta
  injection heta with heta
  subst heta
  simp only [Option.some.injEq] at hv
  subst hv
  obtain ⟨hV0, rfl⟩ := qdiv_eq_some hr
  exact ⟨hV0, by simp [pumpCorrection]⟩

/-- C1 witness: concrete successful off-design run with flow ratio 1/2. -/
theorem off_design_eta_iP_off_formula_witness :
    pDemo.eta_iP = some (1 / 2) ∧
    (pDemo.off_design Bunit 30 100 500 2).1.V_in_off = some 2 ∧
    ((2 : ℚ) ≠ 0 ∧
      (pDemo.off_design Bunit 30 100 500 2).1.eta_iP_off =
        some ((-0.168 * (pDemo.V_in / 2) ^ (3 : ℕ)
          - 0.0336 * (pDemo.V_in / 2) ^ (2 : ℕ)
          + 0.6317 * (pDemo.V_in / 2) + 0.5699) * (1 / 2))) :=
  ⟨by norm_num [pDemo, Pump.power, Bunit, qdiv, pBase],
    by norm_num [Pump.off_design, pDemo, Pump.power, Bunit, qdiv, pBase,
      pumpCorrection_half],
    off_design_eta_iP_off_formula Bunit pDemo
      (pDemo.off_design Bunit 30 100 500 2).1 30 100 500 2 (1 / 2) 2
      (by norm_num [pDemo, Pump.power, Bunit, qdiv, pBase])
      (by norm_num [Pump.off_design, pDemo, Pump.power, Bunit, qdiv, pBase,
        pumpCorrection_half])
      (by norm_num [Pump.off_design, pDemo, Pump.power, Bunit, qdiv, pBase,
        pumpCorrection_half])⟩

/-- C2 (amended): at equal volumetric flows the cubic correction factor is
exactly 1 (its coefficients sum to 1.0000, not 1.0180), so a successful
`off_design` call with `V_in_off = V_in` leaves the efficiency unchanged:
`eta_iP_off = eta_iP`. -/
theorem off_design_equal_flow (B : Backend) (p p' : Pump)
    (Ti pi po mo eta : ℚ)
    (hp : p.eta_iP = some eta)
    (h : p.off_design B Ti pi po mo = (p', none))
    (hv : p'.V_in_off = some p.V_in) :
    p'.eta_iP_off = some eta := by
  simp only [Pump.off_design] at h
  split at h
  · simp at h
  split at h
  · simp at h
  split at h
  · simp at h
  split at h
  · simp at h
  split at h
  · simp at h
  split at h
  · simp at h
  rename_i V hV
  split at h
  · simp at h
  rename_i r hr
  split at h
  · simp at h
  rename_i eta' heta
  split at h
  · simp at h
  split at h
  · simp at h
  split at h
  · simp at h
  rw [Prod.mk.injEq] at h
  obtain ⟨rfl, -⟩ := h
  rw [hp] at heta
  injection heta with heta
  subst heta
  simp only [Option.some.injEq] at hv
  rw [hv] at hr
  obtain ⟨hV0, rfl⟩ := qdiv_eq_some hr
  simp [hv, div_self hV0]
  norm_num [pumpCorrection]

/-- C2 (counterexample): at flow ratio 1 the correction factor evaluates to
1, not 1.0180, and a concrete matched-flow run returns `eta_iP_off` equal to
`eta_iP = 1/2`, not `(1/2) * 1.0180`. -/
theorem off_design_equal_flow_cex :
    pumpCorrection 1 = 1 ∧ (1.0180 : ℚ) ≠ 1 ∧
    pDemo.eta_iP = some (1 / 2) ∧
    (pDemo.off_design Bunit 30 100 500 1).1.V_in_off = some pDemo.V_in ∧
    (pDemo.off_design Bunit 30 100 500 1).1.eta_iP_off = some (1 / 2) ∧
    ((1 : ℚ) / 2) ≠ (1 / 2) * 1.0180 := by
  refine ⟨by norm_num [pumpCorrection], by norm_num, ?_, ?_, ?_, by norm_num⟩ <;>
    norm_num [Pump.off_design, pDemo, Pump.power, Bunit, qdiv, pBase,
      pumpCorrection_one]

/-- C2 witness: the matched-flow run of the amended theorem, concretely. -/
theorem off_design_equal_flow_witness :
    pDemo.eta_iP = some (1 / 2) ∧
    (pDemo.off_design Bunit 30 100 500 1).1.V_in_off = some pDemo.V_in ∧
    (pDemo.off_design Bunit 30 100 500 1).1.eta_iP_off = some (1 / 2) :=
  ⟨by norm_num [pDemo, Pump.power, Bunit, qdiv, pBase],
    by norm_num [Pump.off_design, pDemo, Pump.power, Bunit, qdiv, pBase,
      pumpCorrection_one],
    off_design_equal_flow Bunit pDemo
      (pDemo.off_design Bunit 30 100 500 1).1 30 100 500 1 (1 / 2)
      (by norm_num [pDemo, Pump.power, Bunit, qdiv, pBase])
      (by norm_num [Pump.off_design, pDemo, Pump.power, Bunit, qdiv, pBase,
        pumpCorrection_one])
      (by norm_num [Pump.off_design, pDemo, Pump.power, Bunit, qdiv, pBase,
        pumpCorrection_one])⟩

end OOPPump

namespace OOPPump

/-- C7: a successful `off_design` call writes only the `_off` attributes and
`eta_iP_off`; every original design-point field of the pump is unchanged. -/
theorem off_design_frame (B : Backend) (p p' : Pump) (Ti pi po mo : ℚ)
    (h : p.off_design B Ti pi po mo = (p', none)) :
    p'.T_in = p.T_in ∧
    p'.p_in = p.p_in ∧
    p'.p_out = p.p_out ∧
    p'.mf = p.mf ∧
    p'.medium = p.medium ∧
    p'.h_in = p.h_in ∧
    p'.s_in = p.s_in ∧
    p'.s_out_s = p.s_out_s ∧
    p'.h_out_s = p.h_out_s ∧
    p'.T_out_s = p.T_out_s ∧
    p'.rho_in = p.rho_in ∧
    p'.V_in = p.V_in ∧
    p'.eta_iP = p.eta_iP ∧
    p'.h_out = p.h_out ∧
    p'.T_out = p.T_out ∧
    p'.s_out = p.s_out ∧
    p'.N_iP = p.N_iP := by
  simp only [Pump.off_design] at h
  split at h
  · simp at h
  split at h
  · simp at h
  split at h
  · simp at h
  split at h
  · simp at h
  split at h
  · simp at h
  split at h
  · simp at h
  split at h
  · simp at h
  split at h
  · simp at h
  split at h
  · simp at h
  split at h
  · simp at h
  split at h
  · simp at h
  rw [Prod.mk.injEq] at h
  obtain ⟨rfl, -⟩ := h
  exact ⟨rfl, rfl, rfl, rfl, rfl, rfl, rfl, rfl, rfl, rfl, rfl, rfl, rfl, rfl, rfl, rfl, rfl⟩

/-- C7 witness: the concrete successful off-design run leaves every
design-point field of `pDemo` intact. -/
theorem off_design_frame_witness :
    pDemo.off_design Bunit 30 100 500 2 =
      ((pDemo.off_design Bunit 30 100 500 2).1, none) ∧
    ((pDemo.off_design Bunit 30 100 500 2).1.T_in = pDemo.T_in ∧
      (pDemo.off_design Bunit 30 100 500 2).1.p_in = pDemo.p_in ∧
      (pDemo.off_design Bunit 30 100 500 2).1.p_out = pDemo.p_out ∧
      (pDemo.off_design Bunit 30 100 500 2).1.mf = pDemo.mf ∧
      (pDemo.off_design Bunit 30 100 500 2).1.medium = pDemo.medium ∧
      (pDemo.off_design Bunit 30 100 500 2).1.h_in = pDemo.h_in ∧
      (pDemo.off_design Bunit 30 100 500 2).1.s_in = pDemo.s_in ∧
      (pDemo.off_design Bunit 30 100 500 2).1.s_out_s = pDemo.s_out_s ∧
      (pDemo.off_design Bunit 30 100 500 2).1.h_out_s = pDemo.h_out_s ∧
      (pDemo.off_design Bunit 30 100 500 2).1.T_out_s = pDemo.T_out_s ∧
      (pDemo.off_design Bunit 30 100 500 2).1.rho_in = pDemo.rho_in ∧
      (pDemo.off_design Bunit 30 100 500 2).1.V_in = pDemo.V_in ∧
      (pDemo.off_design Bunit 30 100 500 2).1.eta_iP = pDemo.eta_iP ∧
      (pDemo.off_design Bunit 30 100 500 2).1.h_out = pDemo.h_out ∧
      (pDemo.off_design Bunit 30 100 500 2).1.T_out = pDemo.T_out ∧
      (pDemo.off_design Bunit 30 100 500 2).1.s_out = pDemo.s_out ∧
      (pDemo.off_design Bunit 30 100 500 2).1.N_iP = pDemo.N_iP) :=
  ⟨by norm_num [Pump.off_design, pDemo, Pump.power, Bunit, qdiv, pBase,
      pumpCorrection_half],
    off_design_frame Bunit pDemo (pDemo.off_design Bunit 30 100 500 2).1
      30 100 500 2
      (by norm_num [Pump.off_design, pDemo, Pump.power, Bunit, qdiv, pBase,
        pumpCorrection_half])⟩

/-- C10: calling `off_design` before any `power` call (so `eta_iP` is still
unset) reaches the efficiency-correction step and fails there with the
undefined-attribute error, after the off-design inlet and isentropic-outlet
fields `T_in_off` through `V_in_off` have already been assigned. -/
theorem off_design_before_power (B : Backend) (p p' : Pump)
    (e : Option PErr) (Ti pi po mo v : ℚ)
    (h0 : p.eta_iP = none) (hfresh : p.V_in_off = none)
    (h : p.off_design B Ti pi po mo = (p', e))
    (hv : p'.V_in_off = some v) (hvz : v ≠ 0) :
    e = some PErr.attrError ∧
    p'.T_in_off = some Ti ∧
    p'.p_in_off = some pi ∧
    p'.p_out_off = some po ∧
    p'.mf_off = some mo ∧
    (p'.h_in_off).isSome = true ∧
    (p'.s_in_off).isSome = true ∧
    (p'.s_out_s_off).isSome = true ∧
    (p'.h_out_s_off).isSome = true ∧
    (p'.T_out_s_off).isSome = true ∧
    (p'.rho_in_off).isSome = true ∧
    p'.V_in_off = some v := by
  simp only [Pump.off_design] at h
  split at h
  · rw [Prod.mk.injEq] at h
    obtain ⟨rfl, -⟩ := h
    simp [hfresh] at hv
  split at h
  · rw [Prod.mk.injEq] at h
    obtain ⟨rfl, -⟩ := h
    simp [hfresh] at hv
  split at h
  · rw [Prod.mk.injEq] at h
    obtain ⟨rfl, -⟩ := h
    simp [hfresh] at hv
  split at h
  · rw [Prod.mk.injEq] at h
    obtain ⟨rfl, -⟩ := h
    simp [hfresh] at hv
  split at h
  · rw [Prod.mk.injEq] at h
    obtain ⟨rfl, -⟩ := h
    simp [hfresh] at hv
  split at h
  · rw [Prod.mk.injEq] at h
    obtain ⟨rfl, -⟩ := h
    simp [hfresh] at hv
  rename_i V hV
  split at h
  · rw [Prod.mk.injEq] at h
    obtain ⟨rfl, -⟩ := h
    rename_i hq7
    simp only [Option.some.injEq] at hv
    subst hv
    exact absurd (qdiv_eq_none hq7) hvz
  rename_i r hr
  split at h
  · rw [Prod.mk.injEq] at h
    obtain ⟨rfl, rfl⟩ := h
    exact ⟨rfl, rfl, rfl, rfl, rfl, rfl, rfl, rfl, rfl, rfl, rfl, hv⟩
  rename_i eta' heta
  rw [h0] at heta
  simp at heta

/-- C10 witness: the concrete premature `off_design` call on the freshly
constructed pump fails with the attribute error while the `_off` fields up to
`V_in_off` are populated. -/
theorem off_design_before_power_witness :
    pBase.eta_iP = none ∧ pBase.V_in_off = none ∧ (2 : ℚ) ≠ 0 ∧
    (pBase.off_design Bunit 30 100 500 2).1.V_in_off = some 2 ∧
    ((pBase.off_design Bunit 30 100 500 2).2 = some PErr.attrError ∧
      (pBase.off_design Bunit 30 100 500 2).1.T_in_off = some 30 ∧
      (pBase.off_design Bunit 30 100 500 2).1.p_in_off = some 100 ∧
      (pBase.off_design Bunit 30 100 500 2).1.p_out_off = some 500 ∧
      (pBase.off_design Bunit 30 100 500 2).1.mf_off = some 2 ∧
      ((pBase.off_design Bunit 30 100 500 2).1.h_in_off).isSome = true ∧
      ((pBase.off_design Bunit 30 100 500 2).1.s_in_off).isSome = true ∧
      ((pBase.off_design Bunit 30 100 500 2).1.s_out_s_off).isSome = true ∧
      ((pBase.off_design Bunit 30 100 500 2).1.h_out_s_off).isSome = true ∧
      ((pBase.off_design Bunit 30 100 500 2).1.T_out_s_off).isSome = true ∧
      ((pBase.off_design Bunit 30 100 500 2).1.rho_in_off).isSome = true ∧
      (pBase.off_design Bunit 30 100 500 2).1.V_in_off = some 2) :=
  ⟨rfl, rfl, by norm_num,
    by norm_num [Pump.off_design, Bunit, qdiv, pBase],
    off_design_before_power Bunit pBase
      (pBase.off_design Bunit 30 100 500 2).1
      (pBase.off_design Bunit 30 100 500 2).2 30 100 500 2 2 rfl rfl rfl
      (by norm_num [Pump.off_design, Bunit, qdiv, pBase]) (by norm_num)⟩

end OOPPump
